import Mathlib

/-!
Verification of the calendar web client (src/web/src/app/page.tsx and
src/web/src/components/EventList.tsx) against its natural-language
specification.  The relevant handlers are embedded shallowly: the
WebSocket effect closure (reconnect/backoff state) becomes a `ConnState`
record with one Lean function per handler, the React component state
becomes a `ClientState` record, and each async operation is split into
its synchronous start step and its completion step (the continuation run
when the awaited promise settles).  JavaScript truthiness defaulting
(`x || d`) over typed JSON payloads is modelled on `Option` fields.
-/

namespace CalendarAgent

/-! ## Connection manager state (the useEffect closure in page.tsx)

The closure owns the variables reconnectTimeout, isConnecting and
reconnectAttempts, plus wsRef.current.  `pendingTimer` holds the delay of
the timer most recently stored in reconnectTimeout (none after it fires);
`scheduledDelays` is a history of every delay ever passed to setTimeout,
so that "no further timer is scheduled" is the statement that this log
does not grow. -/

structure ConnState where
  reconnectAttempts : Nat
  isConnecting : Bool
  pendingTimer : Option Nat
  scheduledDelays : List Nat
  wsPresent : Bool
deriving DecidableEq, Repr

/-- page.tsx line 34: const maxReconnectAttempts = 5. -/
def maxReconnectAttempts : Nat := 5

/-- page.tsx lines 73/112/166: Math.min(1000 * Math.pow(2, reconnectAttempts), 10000). -/
def reconnectDelay (attempts : Nat) : Nat := min (1000 * 2 ^ attempts) 10000

/-- page.tsx lines 99-123, ws.onclose: clear isConnecting and wsRef, then if
attempts remain, increment the counter first and schedule a reconnect with the
delay computed from the incremented counter. -/
def wsOnClose (s : ConnState) : ConnState :=
  let s1 : ConnState := { s with isConnecting := false, wsPresent := false }
  if s1.reconnectAttempts < maxReconnectAttempts then
    let a := s1.reconnectAttempts + 1
    let d := reconnectDelay a
    { s1 with reconnectAttempts := a, pendingTimer := some d,
              scheduledDelays := s1.scheduledDelays ++ [d] }
  else s1

/-- page.tsx lines 84-97, ws.onopen: clear isConnecting and reset the attempt
counter to 0.  The handler does not call clearTimeout. -/
def wsOnOpen (s : ConnState) : ConnState :=
  { s with isConnecting := false, reconnectAttempts := 0 }

/-- page.tsx lines 125-128, ws.onerror: only clears isConnecting. -/
def wsOnError (s : ConnState) : ConnState :=
  { s with isConnecting := false }

/-- page.tsx lines 37-82, connectWebSocket: no-op when already connecting or
the budget is exhausted; otherwise set isConnecting, close and null out any
existing socket, and attempt creation.  `creationFails` selects the catch
branch around new WebSocket (lines 68-81), which increments the counter and
schedules a reconnect exactly like onclose; on successful creation the new
socket is stored in wsRef. -/
def connectWebSocket (s : ConnState) (creationFails : Bool) : ConnState :=
  if s.isConnecting || decide (s.reconnectAttempts ≥ maxReconnectAttempts) then s
  else
    let s1 : ConnState := { s with isConnecting := true, wsPresent := false }
    if creationFails then
      let s2 : ConnState := { s1 with isConnecting := false }
      if s2.reconnectAttempts < maxReconnectAttempts then
        let a := s2.reconnectAttempts + 1
        let d := reconnectDelay a
        { s2 with reconnectAttempts := a, pendingTimer := some d,
                  scheduledDelays := s2.scheduledDelays ++ [d] }
      else s2
    else { s1 with wsPresent := true }

/-- The external stimuli the connection closure reacts to: a close event, an
error event, an open event, a direct connectWebSocket call, and the reconnect
timer firing (which consumes the pending timer and calls connectWebSocket). -/
inductive ConnEvent where
  | closed
  | errored
  | opened
  | connectCall (creationFails : Bool)
  | timerFired (creationFails : Bool)
deriving DecidableEq, Repr

def connStep (s : ConnState) : ConnEvent → ConnState
  | ConnEvent.closed => wsOnClose s
  | ConnEvent.errored => wsOnError s
  | ConnEvent.opened => wsOnOpen s
  | ConnEvent.connectCall f => connectWebSocket s f
  | ConnEvent.timerFired f => connectWebSocket { s with pendingTimer := none } f

def runConn (s : ConnState) (evs : List ConnEvent) : ConnState :=
  evs.foldl connStep s

/-- Events other than a successful open (onopen cannot fire once no socket can
ever be created again). -/
def nonOpen : ConnEvent → Bool
  | ConnEvent.opened => false
  | _ => true

/-! ## Data model (lib/api types, used by page.tsx) -/

/-- Calendar components of a parsed timestamp, as read through the JS Date
accessors used by the code: getFullYear, getMonth (normalised here to 1..12),
getDate, and the milliseconds elapsed within the day. -/
structure DateTime where
  year : Nat
  month : Nat
  day : Nat
  ms : Nat
deriving DecidableEq, Repr

/-- An Event as held in the client cache. -/
structure Event where
  id : String
  title : String
  description : Option String
  start_time : DateTime
  end_time : DateTime
  location : Option String
  participants : List String
deriving DecidableEq, Repr

/-- The SyncStatus record kept in component state. -/
structure SyncStatus where
  success : Bool
  new_events : Nat
  updated_events : Nat
  deleted_events : Nat
  errors : List String
deriving DecidableEq, Repr

/-- A sync-stats JSON object whose fields may each be absent (undefined). -/
structure SyncPayloadOpt where
  success : Option Bool
  new_events : Option Nat
  updated_events : Option Nat
  deleted_events : Option Nat
  errors : Option (List String)
deriving DecidableEq, Repr

/-- A parsed WebSocket frame: the mandatory type discriminator plus the
optional data object carried by sync_complete (data.data in the code, absent
when the server sent none). -/
structure RawMsg where
  type : String
  data : Option SyncPayloadOpt
deriving DecidableEq, Repr

/-- React component state of Home in page.tsx, restricted to the fields the
claims are about, plus a count of fetchEvents invocations started (so that
"no re-fetch occurs" is the statement that this count does not grow). -/
structure ClientState where
  events : List Event
  loading : Bool
  syncing : Bool
  error : Option String
  syncStatus : SyncStatus
  fetchesIssued : Nat
deriving DecidableEq, Repr

/-! ## Handlers on client state -/

/-- The defaulting applied identically at page.tsx lines 141-147 and 253-259:
each field of the (possibly absent, possibly partial) stats object is passed
through the JS idiom x || default.  On a Bool, b || false equals b; on a Nat,
n || 0 equals n (0 is falsy but the default is also 0); on an array, e || []
equals e (arrays are truthy); an absent field yields the default.  So on these
typed payloads the idiom is exactly Option.getD. -/
def defaultedSyncStatus (d : Option SyncPayloadOpt) : SyncStatus :=
  { success := (d.bind SyncPayloadOpt.success).getD false
    new_events := (d.bind SyncPayloadOpt.new_events).getD 0
    updated_events := (d.bind SyncPayloadOpt.updated_events).getD 0
    deleted_events := (d.bind SyncPayloadOpt.deleted_events).getD 0
    errors := (d.bind SyncPayloadOpt.errors).getD [] }

/-- Synchronous prefix of fetchEvents (page.tsx lines 203-207): setLoading(true)
and the api request is issued. -/
def fetchEventsStart (s : ClientState) : ClientState :=
  { s with loading := true, fetchesIssued := s.fetchesIssued + 1 }

/-- Completion of fetchEvents (page.tsx lines 209-243): on api success the
cache is replaced by the response; on api failure (the inner catch) data is
set to the empty array, the error message is surfaced (err.message when the
thrown value is an Error, a fixed string otherwise), and the empty array is
then stored; finally clears loading. -/
def fetchEventsComplete (s : ClientState) : Except (Option String) (List Event) → ClientState
  | Except.ok data => { s with events := data, loading := false }
  | Except.error m =>
      { s with events := [],
               error := some (m.getD "Failed to fetch events from server"),
               loading := false }

/-- Outcome of api.syncCalendar(): resolved with a (possibly partial) stats
object, or rejected (the Option String is the message when the thrown value
is an Error). -/
inductive SyncCallResult where
  | resolved (d : Option SyncPayloadOpt)
  | thrown (m : Option String)
deriving DecidableEq, Repr

/-- Synchronous prefix of handleSync (page.tsx lines 246-248): setSyncing(true)
and setError(null). -/
def handleSyncStart (s : ClientState) : ClientState :=
  { s with syncing := true, error := none }

/-- Completion of handleSync (page.tsx lines 250-272): on a resolved call the
defaulted stats replace syncStatus and nothing else changes (in particular
syncing is not cleared); on a rejected call the error is surfaced, syncStatus
is reset to a failure record carrying one error string, and syncing is
cleared. -/
def handleSyncResponse (s : ClientState) : SyncCallResult → ClientState
  | SyncCallResult.resolved d => { s with syncStatus := defaultedSyncStatus d }
  | SyncCallResult.thrown m =>
      { s with error := some (m.getD "Sync failed"),
               syncStatus :=
                 { success := false, new_events := 0, updated_events := 0,
                   deleted_events := 0,
                   errors := ["Sync failed: " ++ m.getD "Unknown error"] },
               syncing := false }

/-- ws.onmessage (page.tsx lines 130-158).  The argument is none when
JSON.parse threw (the catch only logs).  connection_established and pong only
log; sync_complete stores the defaulted stats, clears syncing and then starts
fetchEvents; every other type (the code has no inbound ping case either) only
logs.  The handler performs no socket operation in any branch. -/
def wsOnMessage (s : ClientState) : Option RawMsg → ClientState
  | none => s
  | some msg =>
      if msg.type = "connection_established" then s
      else if msg.type = "sync_complete" then
        fetchEventsStart
          { s with syncStatus := defaultedSyncStatus msg.data, syncing := false }
      else if msg.type = "pong" then s
      else s

/-- Result object of api.deleteEvent: success flag and optional error string. -/
structure DeleteResponse where
  success : Bool
  error : Option String
deriving DecidableEq, Repr

/-- JS x || default on strings: an absent or empty (falsy) string yields the
default. -/
def jsOrString (x : Option String) (dflt : String) : String :=
  match x with
  | some v => if v = "" then dflt else v
  | none => dflt

/-- Synchronous prefix of handleDeleteEvent (page.tsx line 304): setLoading. -/
def handleDeleteEventStart (s : ClientState) : ClientState :=
  { s with loading := true }

/-- Completion of handleDeleteEvent (page.tsx lines 305-318): on a response
with success, the event with the given id is filtered out of the local cache
(no re-fetch) and the error is cleared; on a response without success, the
reported error string (or the fixed default) is surfaced; on a rejected call
the thrown message is surfaced; finally clears loading. -/
def handleDeleteEvent (s : ClientState) (eventId : String) :
    Except (Option String) DeleteResponse → ClientState
  | Except.ok r =>
      if r.success then
        { s with events := s.events.filter (fun ev => ev.id != eventId),
                 error := none, loading := false }
      else
        { s with error := some (jsOrString r.error "Failed to delete event"),
                 loading := false }
  | Except.error m =>
      { s with error := some (m.getD "Failed to delete event"), loading := false }

/-! ## EventList (src/web/src/components/EventList.tsx)

The component filters the events prop by the selected (date, range) pair and
sorts the survivors by start_time.  The proleptic Gregorian civil calendar is
embedded so that the date-fns helpers startOfWeek / endOfWeek / startOfMonth /
endOfMonth and interval membership on timestamps have their standard meaning:
timestamps are compared as absolute milliseconds, with days counted from
March 1 of year 0 (a Wednesday). -/

def isLeapYear (y : Nat) : Bool :=
  (y % 4 == 0 && y % 100 != 0) || y % 400 == 0

def daysInMonth (y m : Nat) : Nat :=
  if m = 2 then (if isLeapYear y then 29 else 28)
  else if m = 4 || m = 6 || m = 9 || m = 11 then 30
  else 31

/-- Days elapsed since March 1 of year 0 (shifted-epoch civil-from-date). -/
def daysFromCivil (y m d : Nat) : Nat :=
  let yShift := if m ≤ 2 then y - 1 else y
  let era := yShift / 400
  let yoe := yShift % 400
  let mp := (m + 9) % 12
  let doy := (153 * mp + 2) / 5 + d - 1
  let doe := yoe * 365 + yoe / 4 - yoe / 100 + doy
  era * 146097 + doe

/-- Day of week with Sunday = 0; day 0 of the epoch is a Wednesday. -/
def dayOfWeek (days : Nat) : Nat := (days + 3) % 7

def msPerDay : Nat := 86400000

/-- A DateTime as absolute milliseconds (Date.prototype.getTime). -/
def toMillis (t : DateTime) : Nat :=
  daysFromCivil t.year t.month t.day * msPerDay + t.ms

/-- date-fns startOfWeek: midnight of the Sunday on or before the date. -/
def startOfWeekMs (t : DateTime) : Nat :=
  let days := daysFromCivil t.year t.month t.day
  (days - dayOfWeek days) * msPerDay

/-- date-fns endOfWeek: last millisecond of the Saturday of the same week. -/
def endOfWeekMs (t : DateTime) : Nat :=
  startOfWeekMs t + 7 * msPerDay - 1

/-- date-fns startOfMonth: midnight of the first of the month. -/
def startOfMonthMs (t : DateTime) : Nat :=
  daysFromCivil t.year t.month 1 * msPerDay

/-- date-fns endOfMonth: last millisecond of the last day of the month. -/
def endOfMonthMs (t : DateTime) : Nat :=
  daysFromCivil t.year t.month (daysInMonth t.year t.month) * msPerDay
    + msPerDay - 1

inductive DateRange where
  | day
  | week
  | month
deriving DecidableEq, Repr

/-- The filter predicate of EventList.tsx lines 16-35: for day view, equality
of the year/month/day components of the parsed start_time and the selected
date; for week and month views, isWithinInterval (inclusive bounds) against
the enclosing week or calendar month of the selected date. -/
def eventInRange (dateRange : DateRange) (date : DateTime) (ev : Event) : Bool :=
  let eventDate := ev.start_time
  match dateRange with
  | DateRange.day =>
      eventDate.year == date.year && eventDate.month == date.month
        && eventDate.day == date.day
  | DateRange.week =>
      startOfWeekMs date ≤ toMillis eventDate
        && toMillis eventDate ≤ endOfWeekMs date
  | DateRange.month =>
      startOfMonthMs date ≤ toMillis eventDate
        && toMillis eventDate ≤ endOfMonthMs date

/-- The sort comparator of EventList.tsx line 36: nondecreasing getTime of
start_time. -/
def evLe (a b : Event) : Bool :=
  toMillis a.start_time ≤ toMillis b.start_time

/-- EventList.tsx lines 16-36: filteredEvents = events.filter(...).sort(...). -/
def filteredEvents (events : List Event) (date : DateTime)
    (dateRange : DateRange) : List Event :=
  (events.filter (eventInRange dateRange date)).mergeSort evLe

/-! ## Concrete fixtures -/

/-- Connection state right after the first successful connection. -/
def connState0 : ConnState :=
  { reconnectAttempts := 0, isConnecting := false, pendingTimer := none,
    scheduledDelays := [], wsPresent := true }

/-- A state with a reconnect timer pending while a new socket opens. -/
def connStateWithTimer : ConnState :=
  { reconnectAttempts := 1, isConnecting := true, pendingTimer := some 2000,
    scheduledDelays := [2000], wsPresent := true }

/-- Connection state with the retry budget exhausted. -/
def connStateMax : ConnState :=
  { reconnectAttempts := 5, isConnecting := false, pendingTimer := none,
    scheduledDelays := [2000, 4000, 8000, 10000, 10000], wsPresent := false }

/-- The initial component state of Home (page.tsx lines 12-26). -/
def client0 : ClientState :=
  { events := [], loading := false, syncing := false, error := none,
    syncStatus := SyncStatus.mk false 0 0 0 [], fetchesIssued := 0 }

/-- A fully populated successful sync response. -/
def syncOkPayload : SyncPayloadOpt :=
  SyncPayloadOpt.mk (some true) (some 3) (some 1) (some 0) (some [])

/-- The payload of a sync_complete message whose data object is empty. -/
def emptyPayload : SyncPayloadOpt :=
  SyncPayloadOpt.mk none none none none none

def dtMon : DateTime := DateTime.mk 2025 1 6 32400000

def dtTue : DateTime := DateTime.mk 2025 1 7 32400000

/-- An event on Monday 2025-01-06 09:00. -/
def eventA : Event := Event.mk "a" "Monday standup" none dtMon dtMon none []

/-- An event on Tuesday 2025-01-07 09:00. -/
def eventB : Event := Event.mk "b" "Tuesday review" none dtTue dtTue none []

/-! ## Theorems -/

/-- C2 (counterexample): on the very first close after a fresh connection the
counter is incremented before the delay is computed, so the scheduled delay is
2000 ms, not the 1000 ms the claim derives from the pre-increment counter. -/
theorem firstReconnectDelay_counterexample :
    (wsOnClose connState0).pendingTimer = some 2000 ∧
    ¬ (wsOnClose connState0).pendingTimer = some 1000 := by
  decide

/-- C2 (amended): for every close or socket-creation failure while the counter
n is below 5, a reconnect is scheduled with delay min(1000 * 2 ^ (n + 1), 10000)
milliseconds — the delay is computed from the counter value after the
increment — and the counter increments by exactly one per scheduled reconnect;
the first reconnect after a fresh connection therefore waits 2000 ms. -/
theorem reconnectBackoff_post_increment (s : ConnState)
    (h : s.reconnectAttempts < maxReconnectAttempts) :
    (wsOnClose s).reconnectAttempts = s.reconnectAttempts + 1 ∧
    (wsOnClose s).pendingTimer
      = some (min (1000 * 2 ^ (s.reconnectAttempts + 1)) 10000) ∧
    (wsOnClose s).scheduledDelays
      = s.scheduledDelays ++ [min (1000 * 2 ^ (s.reconnectAttempts + 1)) 10000] ∧
    (s.isConnecting = false →
      (connectWebSocket s true).reconnectAttempts = s.reconnectAttempts + 1 ∧
      (connectWebSocket s true).pendingTimer
        = some (min (1000 * 2 ^ (s.reconnectAttempts + 1)) 10000)) := by
  refine ⟨?_, ?_, ?_, fun hi => ⟨?_, ?_⟩⟩ <;>
    simp [wsOnClose, connectWebSocket, reconnectDelay, h, Nat.not_le.mpr h, *]

/-- C2 (witness). -/
theorem reconnectBackoff_post_increment_witness :
    (wsOnClose connState0).reconnectAttempts = connState0.reconnectAttempts + 1 ∧
    (wsOnClose connState0).pendingTimer
      = some (min (1000 * 2 ^ (connState0.reconnectAttempts + 1)) 10000) ∧
    (wsOnClose connState0).scheduledDelays
      = connState0.scheduledDelays
          ++ [min (1000 * 2 ^ (connState0.reconnectAttempts + 1)) 10000] ∧
    (connState0.isConnecting = false →
      (connectWebSocket connState0 true).reconnectAttempts
        = connState0.reconnectAttempts + 1 ∧
      (connectWebSocket connState0 true).pendingTimer
        = some (min (1000 * 2 ^ (connState0.reconnectAttempts + 1)) 10000)) :=
  reconnectBackoff_post_increment connState0 (by decide)

/-- C3 (counterexample): a successful open resets the counter but does not
cancel the pending reconnect timer — after onopen on a state with a timer
pending, the timer is still pending, so a stale timer can fire after a
successful open. -/
theorem openCancelsTimer_counterexample :
    (wsOnOpen connStateWithTimer).reconnectAttempts = 0 ∧
    (wsOnOpen connStateWithTimer).pendingTimer = some 2000 ∧
    ¬ (wsOnOpen connStateWithTimer).pendingTimer = none := by
  decide

/-- C3 (amended): whenever the connection opens successfully, the
reconnect-attempt counter is reset to 0 and the in-flight flag is cleared, but
the handler does not cancel a pending reconnect timer: the pending timer and
the log of scheduled timers are unchanged (only the unmount cleanup calls
clearTimeout). -/
theorem openResetsAttempts_keepsTimer (s : ConnState) :
    (wsOnOpen s).reconnectAttempts = 0 ∧
    (wsOnOpen s).isConnecting = false ∧
    (wsOnOpen s).pendingTimer = s.pendingTimer ∧
    (wsOnOpen s).scheduledDelays = s.scheduledDelays := by
  simp [wsOnOpen]

/-- With the retry budget exhausted, connectWebSocket returns its state
unchanged. -/
lemma connectWebSocket_noop_of_budget (s : ConnState) (f : Bool)
    (h5 : s.reconnectAttempts = maxReconnectAttempts) :
    connectWebSocket s f = s := by
  simp [connectWebSocket, h5]

/-- One non-open stimulus at the exhausted budget keeps the counter at the
maximum, schedules nothing, and cannot resurrect a socket. -/
lemma connStep_budget (s : ConnState) (e : ConnEvent)
    (h5 : s.reconnectAttempts = maxReconnectAttempts) (he : nonOpen e = true) :
    (connStep s e).reconnectAttempts = maxReconnectAttempts ∧
    (connStep s e).scheduledDelays = s.scheduledDelays ∧
    ((connStep s e).wsPresent = true → s.wsPresent = true) := by
  cases e with
  | closed => simp [connStep, wsOnClose, h5, maxReconnectAttempts]
  | errored => simp [connStep, wsOnError, h5]
  | opened => simp [nonOpen] at he
  | connectCall f => simp [connStep, connectWebSocket_noop_of_budget s f h5, h5]
  | timerFired f =>
      have h := connectWebSocket_noop_of_budget { s with pendingTimer := none } f h5
      simp only [connStep, h]
      simp [h5]

/-- C7: once the reconnect-attempt counter has reached the maximum of 5, every
subsequent sequence of close events, error events, direct connectWebSocket
calls and timer firings leaves the counter at 5, schedules no further
reconnect timer (the log of scheduled delays does not grow), keeps
connectWebSocket a no-op, and never brings a socket back: the system stays
disconnected until an external manual retry. -/
theorem budgetExhausted_permanent (s : ConnState) (evs : List ConnEvent)
    (h5 : s.reconnectAttempts = maxReconnectAttempts)
    (hno : evs.all nonOpen = true) :
    (runConn s evs).reconnectAttempts = maxReconnectAttempts ∧
    (runConn s evs).scheduledDelays = s.scheduledDelays ∧
    (∀ f, connectWebSocket (runConn s evs) f = runConn s evs) ∧
    (s.wsPresent = false → (runConn s evs).wsPresent = false) := by
  induction evs generalizing s with
  | nil =>
      exact ⟨h5, rfl, fun f => connectWebSocket_noop_of_budget _ f h5, fun h => h⟩
  | cons e tl ih =>
      rw [List.all_cons, Bool.and_eq_true] at hno
      have hstep := connStep_budget s e h5 hno.1
      have htail := ih (connStep s e) hstep.1 hno.2
      refine ⟨htail.1, ?_, htail.2.2.1, ?_⟩
      · exact htail.2.1.trans hstep.2.1
      · intro hw
        apply htail.2.2.2
        cases hcs : (connStep s e).wsPresent with
        | false => rfl
        | true => exact absurd (hstep.2.2 hcs) (by simp [hw])

/-- C7 (witness). -/
theorem budgetExhausted_permanent_witness :
    (runConn connStateMax
        [ConnEvent.closed, ConnEvent.connectCall false, ConnEvent.errored,
         ConnEvent.timerFired true]).reconnectAttempts = maxReconnectAttempts ∧
    (runConn connStateMax
        [ConnEvent.closed, ConnEvent.connectCall false, ConnEvent.errored,
         ConnEvent.timerFired true]).scheduledDelays
      = connStateMax.scheduledDelays ∧
    (∀ f, connectWebSocket (runConn connStateMax
        [ConnEvent.closed, ConnEvent.connectCall false, ConnEvent.errored,
         ConnEvent.timerFired true]) f
      = runConn connStateMax
        [ConnEvent.closed, ConnEvent.connectCall false, ConnEvent.errored,
         ConnEvent.timerFired true]) ∧
    (connStateMax.wsPresent = false →
      (runConn connStateMax
        [ConnEvent.closed, ConnEvent.connectCall false, ConnEvent.errored,
         ConnEvent.timerFired true]).wsPresent = false) :=
  budgetExhausted_permanent connStateMax
    [ConnEvent.closed, ConnEvent.connectCall false, ConnEvent.errored,
     ConnEvent.timerFired true] (by decide) (by decide)

/-- C1 (counterexample): a sync() whose api call resolves successfully does
not clear the syncing flag — only the catch branch does — so two sync()
invocations in a row, both completing successfully with no sync_complete
notification in between, leave the syncing flag stuck true. -/
theorem syncFlagCleared_counterexample :
    (handleSyncResponse (handleSyncStart client0)
        (SyncCallResult.resolved (some syncOkPayload))).syncing = true ∧
    (handleSyncResponse
        (handleSyncStart
          (handleSyncResponse (handleSyncStart client0)
            (SyncCallResult.resolved (some syncOkPayload))))
        (SyncCallResult.resolved (some syncOkPayload))).syncing = true := by
  decide

/-- C1 (amended): handleSync sets the syncing flag true and clears the error
at the start; on the response the SyncStatus is updated in both cases, but the
flag is cleared only when the call throws — on a successful response the flag
stays true and is cleared only when a later sync_complete notification is
processed by the message handler. -/
theorem syncFlag_cleared_on_error_or_notification (s : ClientState)
    (d q : Option SyncPayloadOpt) (m : Option String) :
    (handleSyncStart s).syncing = true ∧
    (handleSyncStart s).error = none ∧
    (handleSyncResponse (handleSyncStart s) (SyncCallResult.thrown m)).syncing
      = false ∧
    (handleSyncResponse (handleSyncStart s)
        (SyncCallResult.thrown m)).syncStatus.success = false ∧
    (handleSyncResponse (handleSyncStart s)
        (SyncCallResult.resolved d)).syncStatus = defaultedSyncStatus d ∧
    (handleSyncResponse (handleSyncStart s)
        (SyncCallResult.resolved d)).syncing = true ∧
    (wsOnMessage
        (handleSyncResponse (handleSyncStart s) (SyncCallResult.resolved d))
        (some (RawMsg.mk "sync_complete" q))).syncing = false := by
  refine ⟨rfl, rfl, rfl, rfl, rfl, rfl, ?_⟩
  simp [wsOnMessage, fetchEventsStart]

/-- C4: the sync_complete reducer is total under missing payload data: each
absent numeric count defaults to 0, an absent success flag defaults to false,
an absent error list defaults to the empty list; a sync_complete message whose
data object is empty yields exactly the all-default SyncStatus; and the result
fully replaces the previously held SyncStatus (it does not depend on the prior
client state). -/
theorem syncComplete_defaulting (s s' : ClientState) (p : Option SyncPayloadOpt)
    (b : Option Bool) (n u d : Option Nat) (e : Option (List String)) :
    (wsOnMessage s (some (RawMsg.mk "sync_complete" (some emptyPayload)))).syncStatus
      = SyncStatus.mk false 0 0 0 [] ∧
    (defaultedSyncStatus (some (SyncPayloadOpt.mk none n u d e))).success = false ∧
    (defaultedSyncStatus (some (SyncPayloadOpt.mk b none u d e))).new_events = 0 ∧
    (defaultedSyncStatus (some (SyncPayloadOpt.mk b n none d e))).updated_events = 0 ∧
    (defaultedSyncStatus (some (SyncPayloadOpt.mk b n u none e))).deleted_events = 0 ∧
    (defaultedSyncStatus (some (SyncPayloadOpt.mk b n u d none))).errors = [] ∧
    (wsOnMessage s (some (RawMsg.mk "sync_complete" p))).syncStatus
      = defaultedSyncStatus p ∧
    (wsOnMessage s (some (RawMsg.mk "sync_complete" p))).syncStatus
      = (wsOnMessage s' (some (RawMsg.mk "sync_complete" p))).syncStatus := by
  refine ⟨?_, rfl, rfl, rfl, rfl, rfl, ?_, ?_⟩ <;>
    simp [wsOnMessage, fetchEventsStart, defaultedSyncStatus, emptyPayload]

/-- C5: when the api call behind fetchEvents fails, the cached event list is
replaced by the empty list and a non-null error message is surfaced — a failed
fetch never leaves a stale non-empty event list displayed alongside an
error. -/
theorem fetchFailure_failSafeEmpty (s : ClientState) (m : Option String) :
    (fetchEventsComplete (fetchEventsStart s) (Except.error m)).events = [] ∧
    (fetchEventsComplete (fetchEventsStart s) (Except.error m)).error
      = some (m.getD "Failed to fetch events from server") ∧
    ¬ (fetchEventsComplete (fetchEventsStart s) (Except.error m)).error = none ∧
    (fetchEventsComplete (fetchEventsStart s) (Except.error m)).loading = false := by
  simp [fetchEventsComplete, fetchEventsStart]

/-- C6 (counterexample): two overlapping fetches, A issued first and resolving
last, are both applied in completion order with no tagging or discarding, so
the displayed event list afterwards is fetch A's result, not fetch B's as the
claim requires. -/
theorem overlappingFetch_counterexample :
    (fetchEventsComplete
        (fetchEventsComplete (fetchEventsStart (fetchEventsStart client0))
          (Except.ok [eventB]))
        (Except.ok [eventA])).events = [eventA] ∧
    ¬ (fetchEventsComplete
        (fetchEventsComplete (fetchEventsStart (fetchEventsStart client0))
          (Except.ok [eventB]))
        (Except.ok [eventA])).events = [eventB] := by
  decide

/-- C6 (amended): the displayed event list always reflects the fetch whose
response was applied last in completion order, whatever was applied before it:
a superseded in-flight fetch's result is not discarded, so an earlier-issued
fetch that resolves after a later one overwrites the later one's result. -/
theorem fetchLastCompletionWins (s : ClientState)
    (pre : List (Except (Option String) (List Event)))
    (a : List Event) (m : Option String) :
    ((pre ++ [Except.ok a]).foldl fetchEventsComplete s).events = a ∧
    ((pre ++ [Except.error m]).foldl fetchEventsComplete s).events = [] := by
  constructor <;> rw [List.foldl_append] <;> simp [fetchEventsComplete]

/-- C8: an inbound frame whose declared type is none of connection_established,
sync_complete, pong or ping leaves the entire client state unchanged — the
handler returns the state it was given, so the event cache, SyncStatus,
syncing flag and error are all identical and nothing is torn down. -/
theorem unknownMessage_noop (s : ClientState) (t : String)
    (p : Option SyncPayloadOpt)
    (h1 : ¬ t = "connection_established") (h2 : ¬ t = "sync_complete")
    (h3 : ¬ t = "pong") (h4 : ¬ t = "ping") :
    wsOnMessage s (some (RawMsg.mk t p)) = s := by
  simp [wsOnMessage, h1, h2, h3]

/-- C8 (witness). -/
theorem unknownMessage_noop_witness :
    wsOnMessage client0 (some (RawMsg.mk "server_info" none)) = client0 :=
  unknownMessage_noop client0 "server_info" none (by decide) (by decide)
    (by decide) (by decide)

/-- C9: on a delete response reporting success, exactly the cached events whose
id equals the requested id are removed (membership in the new cache is
membership in the old one with a different id), no re-fetch is started, and
the error is cleared; on a response reporting failure the cache is untouched,
no re-fetch is started, and the error is set to the reported string when it is
non-empty and to the fixed default otherwise. -/
theorem deleteEvent_effect (s : ClientState) (eventId : String)
    (e : Option String) :
    (handleDeleteEvent (handleDeleteEventStart s) eventId
        (Except.ok (DeleteResponse.mk true e))).events
      = s.events.filter (fun ev => ev.id != eventId) ∧
    (∀ ev, ev ∈ (handleDeleteEvent (handleDeleteEventStart s) eventId
        (Except.ok (DeleteResponse.mk true e))).events
      ↔ ev ∈ s.events ∧ ¬ ev.id = eventId) ∧
    (handleDeleteEvent (handleDeleteEventStart s) eventId
        (Except.ok (DeleteResponse.mk true e))).error = none ∧
    (handleDeleteEvent (handleDeleteEventStart s) eventId
        (Except.ok (DeleteResponse.mk true e))).fetchesIssued
      = s.fetchesIssued ∧
    (handleDeleteEvent (handleDeleteEventStart s) eventId
        (Except.ok (DeleteResponse.mk false e))).events = s.events ∧
    (handleDeleteEvent (handleDeleteEventStart s) eventId
        (Except.ok (DeleteResponse.mk false e))).error
      = some (jsOrString e "Failed to delete event") ∧
    (handleDeleteEvent (handleDeleteEventStart s) eventId
        (Except.ok (DeleteResponse.mk false e))).fetchesIssued
      = s.fetchesIssued := by
  simp [handleDeleteEvent, handleDeleteEventStart, List.mem_filter,
    bne_iff_ne]

/-- C10: for every events array, selected date and range, the list rendered by
EventList contains exactly the events whose start_time lies in the selected
range (the calendar day of the selected date, its enclosing Sunday-to-Saturday
week, or its enclosing calendar month), and it is sorted in nondecreasing
order of start_time; events outside the range never appear. -/
theorem eventList_filter_sorted (events : List Event) (date : DateTime)
    (r : DateRange) :
    (∀ ev, ev ∈ filteredEvents events date r
      ↔ ev ∈ events ∧ eventInRange r date ev = true) ∧
    List.Pairwise (fun a b => evLe a b = true) (filteredEvents events date r) := by
  constructor
  · intro ev
    rw [filteredEvents,
      (List.mergeSort_perm (events.filter (eventInRange r date)) evLe).mem_iff,
      List.mem_filter]
  · refine List.sorted_mergeSort ?_ ?_ (events.filter (eventInRange r date))
    · intro a b c hab hbc
      simp only [evLe, decide_eq_true_eq] at hab hbc ⊢
      omega
    · intro a b
      simp only [evLe, Bool.or_eq_true, decide_eq_true_eq]
      omega

end CalendarAgent
